import Mathlib

/-!
Verification of the mnemosyne-chatbot repository.

Shallow embedding of the data model and operations of the chat application
and its Express medical-records backend, with theorems settling the frozen
claims about the natural-language specification.

Conventions used throughout:
* JavaScript strings are modelled as Lean `String` (sequences of Unicode
  scalar values).
* JavaScript numbers that only ever hold integers (timestamps, scores,
  severities) are modelled as `Nat`; coordinate and rating arithmetic is
  modelled over the real numbers.
* Fallible calls (network, decryption, JSON parsing) are modelled as
  `Except String` valued functions; functions whose behaviour is external
  to the repository (LLM calls, key derivation, the AES keystream) are
  taken as parameters so every theorem holds for all of them.
-/

/- ===== String helpers: JavaScript `String.prototype.includes` ===== -/

/-- Boolean test that `cand` occurs at the start of `l`. -/
def leadsList : List Char → List Char → Bool
  | [], _ => true
  | _ :: _, [] => false
  | a :: as, b :: bs => a == b && leadsList as bs

/-- Boolean test that `needle` occurs contiguously somewhere in `hay`. -/
def hasSubstr : List Char → List Char → Bool
  | [], needle => needle.isEmpty
  | h :: t, needle => leadsList needle (h :: t) || hasSubstr t needle

/-- Model of JavaScript `s.includes(sub)` for strings. -/
def strIncludes (s sub : String) : Bool :=
  hasSubstr s.toList sub.toList

/-- Model of JavaScript lower-casing of a string: lower-case each scalar value. -/
def strToLower (s : String) : String :=
  String.mk (s.toList.map Char.toLower)

/- ===== aiService.ts: mock symptom analysis (AIService.analyzeSymptoms) ===== -/

/-- One entry of `mockResponses.symptomAnalysis` in `mockResponses.ts`
(the revision without a stored confidence field, the one whose shape
`formatMockResponse` consumes). -/
structure MockBundle where
  assessment : String
  urgencyLevel : String
  possibleConditions : List String
  recommendations : List String
  nextSteps : List String
deriving DecidableEq, Repr

/-- Entry `mockResponses.symptomAnalysis.fever`. -/
def mockFever : MockBundle where
  assessment := "Your symptoms suggest a possible fever. This could be due to various causes including viral or bacterial infections."
  urgencyLevel := "medium"
  possibleConditions := [
    "Viral infection (common cold, flu)",
    "Bacterial infection",
    "Inflammatory condition",
    "Heat exhaustion or dehydration"]
  recommendations := [
    "Monitor your temperature regularly",
    "Stay hydrated by drinking plenty of fluids",
    "Rest and avoid strenuous activity",
    "Take over-the-counter fever reducers if needed",
    "Seek medical attention if temperature exceeds 103°F (39.4°C) or persists for more than 3 days"]
  nextSteps := [
    "Take your temperature every 4 hours",
    "Keep a symptom diary",
    "Contact your doctor if symptoms worsen",
    "Consider scheduling an appointment if fever persists"]

/-- Entry `mockResponses.symptomAnalysis.headache`. -/
def mockHeadache : MockBundle where
  assessment := "You appear to be experiencing a headache. This could range from a tension headache to a migraine."
  urgencyLevel := "low"
  possibleConditions := [
    "Tension headache",
    "Migraine",
    "Sinus headache",
    "Cluster headache",
    "Stress-related headache"]
  recommendations := [
    "Rest in a quiet, dark room",
    "Stay hydrated",
    "Try over-the-counter pain relievers",
    "Apply a cold or warm compress",
    "If severe or persistent, consult a healthcare provider"]
  nextSteps := [
    "Identify potential triggers",
    "Practice relaxation techniques",
    "Maintain regular sleep schedule",
    "Consider keeping a headache diary"]

/-- Entry `mockResponses.symptomAnalysis.default`. -/
def mockDefault : MockBundle where
  assessment := "Based on the symptoms described, a medical evaluation may be needed for proper diagnosis."
  urgencyLevel := "medium"
  possibleConditions := []
  recommendations := [
    "Monitor your symptoms",
    "Keep track of any changes",
    "Consider consulting with a healthcare provider",
    "Watch for worsening symptoms"]
  nextSteps := []

/-- Return value of `AIService.analyzeSymptoms`: a spread of a mock bundle
together with the confidence added at the return site. -/
structure MockAnalysisResult where
  bundle : MockBundle
  confidence : Nat
deriving DecidableEq, Repr

/-- The mock branch of `AIService.analyzeSymptoms` (`aiService.ts`): taken
whenever `useMockResponses` is set (it is hard-coded `true`) or no API key is
configured.  Lower-cases the description and tests the keyword substrings in
source order, `fever` first. -/
def aiAnalyzeSymptoms (symptomDescription : String) : MockAnalysisResult :=
  let s := strToLower symptomDescription
  if strIncludes s "fever" then ⟨mockFever, 75⟩
  else if strIncludes s "headache" then ⟨mockHeadache, 70⟩
  else ⟨mockDefault, 60⟩

/- ===== ChatInterface (part_004): analyzeSymptoms / calculateRiskAssessment ===== -/

/-- The `severityKeywords` table of the chat interface, in object-literal insertion
order (the order `Object.entries` iterates). -/
def severityKeywords : List (String × Nat) :=
  [("unbearable", 9), ("severe", 8), ("intense", 7), ("moderate", 5), ("mild", 3), ("slight", 2)]

/-- The `emergencyKeywords` list of the chat interface. -/
def emergencyKeywords : List String :=
  ["chest pain", "difficulty breathing", "unconscious", "severe bleeding"]

/-- Severity after the `severityKeywords` scan: starts at the default 5 and
is overwritten by each matching keyword in iteration order. -/
def baseSeverity (message : String) : Nat :=
  severityKeywords.foldl
    (fun acc kv => if strIncludes (strToLower message) kv.1 then kv.2 else acc) 5

/-- Severity produced by the chat interface `analyzeSymptoms`: the keyword
scan result, overwritten to 10 by any emergency keyword. -/
def messageSeverity (message : String) : Nat :=
  emergencyKeywords.foldl
    (fun acc k => if strIncludes (strToLower message) k then 10 else acc)
    (baseSeverity message)

/-- Shape `SymptomData` as produced by the chat interface. -/
structure SymptomData where
  severity : Nat
  duration : String
  frequency : String
  triggers : List String
  associatedSymptoms : List String

/-- The chat interface `analyzeSymptoms`.  The regex-based field extractors
(`extractDuration`, `extractFrequency`, `extractTriggers`,
`extractAssociatedSymptoms`) are taken as parameters: they do not influence
the severity, which is computed concretely. -/
def chatAnalyzeSymptoms (extrDur extrFreq : String → String)
    (extrTrig extrAssoc : String → List String) (message : String) : SymptomData where
  severity := messageSeverity message
  duration := extrDur message
  frequency := extrFreq message
  triggers := extrTrig message
  associatedSymptoms := extrAssoc message

/-- Patient context carried by the chat interface. -/
structure PatientCtx where
  chronicConditions : List String
  medications : List String
  medicalHistory : List String

/-- The `RiskAssessment` record of the chat interface. -/
structure RiskAssessment where
  score : Nat
  confidence : Nat
  urgencyLevel : String
  recommendedAction : String

/-- The risk score of `calculateRiskAssessment`:
`Math.min(severity*10 + conditions*5 + medications*5, 100)`. -/
def riskScore (severity nConditions nMedications : Nat) : Nat :=
  min (severity * 10 + nConditions * 5 + nMedications * 5) 100

/-- The urgency ladder of `calculateRiskAssessment`. -/
def urgencyOf (score : Nat) : String :=
  if 80 < score then "emergency"
  else if 60 < score then "high"
  else if 40 < score then "medium"
  else "low"

/-- Function `getRecommendedAction` of the chat interface. -/
def getRecommendedAction (score : Nat) : String :=
  if 80 < score then "Please seek immediate emergency medical attention"
  else if 60 < score then "Schedule an urgent care appointment within 24 hours"
  else if 40 < score then "Schedule a consultation with your primary care physician"
  else "Monitor your symptoms and schedule a routine check-up"

/-- The confidence computation of `calculateRiskAssessment`; the four
booleans are the `extractSymptomInfo` regex findings. -/
def riskConfidence (hasDur hasFreq hasSev hasTrig : Bool) (messageCount : Nat) : Nat :=
  let c := 20 + (if hasDur then 20 else 0) + (if hasFreq then 20 else 0)
    + (if hasSev then 20 else 0) + (if hasTrig then 20 else 0)
  min (c + messageCount * 5) 95

/-- Function `calculateRiskAssessment` of the chat interface.  The
`extractSymptomInfo` booleans and the user-message count are parameters
(they come from regex scans and the conversation history). -/
def calculateRiskAssessment (symptoms : SymptomData) (context : PatientCtx)
    (hasDur hasFreq hasSev hasTrig : Bool) (messageCount : Nat) : RiskAssessment :=
  let score := riskScore symptoms.severity context.chronicConditions.length
    context.medications.length
  { score := score
    confidence := riskConfidence hasDur hasFreq hasSev hasTrig messageCount
    urgencyLevel := urgencyOf score
    recommendedAction := getRecommendedAction score }

/- ===== theorems for C8 and C9 ===== -/

/-- C8: in mock mode, `analyzeSymptoms` applied to any description whose
lowercase form contains the substring `fever` returns the pre-written fever
bundle with confidence 75, regardless of any other keywords such as
`headache`, because the fever test is made first. -/
theorem aiAnalyzeSymptoms_fever_first (s : String)
    (h : strIncludes (strToLower s) "fever" = true) :
    aiAnalyzeSymptoms s = ⟨mockFever, 75⟩ := by
  simp only [aiAnalyzeSymptoms, h, if_true]

theorem aiAnalyzeSymptoms_fever_first_witness :
    strIncludes (strToLower "I have a fever and a headache") "fever" = true ∧
      aiAnalyzeSymptoms "I have a fever and a headache" = ⟨mockFever, 75⟩ :=
  ⟨by decide, aiAnalyzeSymptoms_fever_first _ (by decide)⟩

/-- Folding an overriding update leaves the override value unchanged. -/
theorem foldl_override_fix {α : Type} (p : α → Bool) (v : Nat) :
    ∀ (l : List α), l.foldl (fun acc k => if p k then v else acc) v = v := by
  intro l
  induction l with
  | nil => rfl
  | cons h t ih => by_cases hp : p h <;> simp [hp, ih]

/-- If some element of the list matches, the overriding fold returns the
override value no matter the start value. -/
theorem foldl_override_of_mem {α : Type} (p : α → Bool) (v : Nat) :
    ∀ (l : List α) (acc : Nat), (∃ k ∈ l, p k = true) →
      l.foldl (fun acc k => if p k then v else acc) v = v ∧
      l.foldl (fun acc k => if p k then v else acc) acc = v := by
  intro l
  induction l with
  | nil => intro acc h; rcases h with ⟨k, hk, _⟩; cases hk
  | cons h t ih =>
    intro acc hex
    refine ⟨foldl_override_fix p v _, ?_⟩
    by_cases hp : p h
    · simpa [hp] using foldl_override_fix p v t
    · rcases hex with ⟨k, hk, hpk⟩
      rcases List.mem_cons.mp hk with rfl | hk'
      · exact absurd hpk (by simp [hp])
      · simpa [hp] using (ih acc ⟨k, hk', hpk⟩).2

/-- C9: a message containing one of the emergency keywords gets severity 10
from the chat `analyzeSymptoms`, and `calculateRiskAssessment` on that data
yields score 100 and urgency `emergency`, for every patient context,
extractor behaviour and conversation history. -/
theorem emergency_keywords_risk_100
    (extrDur extrFreq : String → String) (extrTrig extrAssoc : String → List String)
    (message : String) (context : PatientCtx)
    (hasDur hasFreq hasSev hasTrig : Bool) (messageCount : Nat)
    (h : ∃ k ∈ emergencyKeywords, strIncludes (strToLower message) k = true) :
    let sd := chatAnalyzeSymptoms extrDur extrFreq extrTrig extrAssoc message
    sd.severity = 10 ∧
      (calculateRiskAssessment sd context hasDur hasFreq hasSev hasTrig messageCount).score = 100 ∧
      (calculateRiskAssessment sd context hasDur hasFreq hasSev hasTrig messageCount).urgencyLevel
        = "emergency" := by
  intro sd
  have hsev : sd.severity = 10 := by
    show messageSeverity message = 10
    exact (foldl_override_of_mem (fun k => strIncludes (strToLower message) k) 10
      emergencyKeywords (baseSeverity message) h).2
  have hscore :
      (calculateRiskAssessment sd context hasDur hasFreq hasSev hasTrig messageCount).score
        = 100 := by
    show riskScore sd.severity _ _ = 100
    rw [hsev]
    unfold riskScore
    omega
  refine ⟨hsev, hscore, ?_⟩
  show urgencyOf (riskScore sd.severity _ _) = "emergency"
  have : riskScore sd.severity context.chronicConditions.length context.medications.length
      = 100 := hscore
  rw [this]
  rfl

theorem emergency_keywords_risk_100_witness :
    (∃ k ∈ emergencyKeywords,
      strIncludes (strToLower "I suddenly have chest pain") k = true) ∧
    (chatAnalyzeSymptoms id id (fun _ => []) (fun _ => [])
        "I suddenly have chest pain").severity = 10 ∧
    (calculateRiskAssessment
        (chatAnalyzeSymptoms id id (fun _ => []) (fun _ => []) "I suddenly have chest pain")
        ⟨[], [], []⟩ false false false false 0).score = 100 ∧
    (calculateRiskAssessment
        (chatAnalyzeSymptoms id id (fun _ => []) (fun _ => []) "I suddenly have chest pain")
        ⟨[], [], []⟩ false false false false 0).urgencyLevel = "emergency" := by
  refine ⟨by decide, ?_⟩
  exact emergency_keywords_risk_100 id id (fun _ => []) (fun _ => [])
    "I suddenly have chest pain" ⟨[], [], []⟩ false false false false 0 (by decide)

/- ===== symptomAnalysisService.ts: SYMPTOM_DATABASE and analyzeSymptoms ===== -/

/-- Shape `SymptomRecommendation` of `symptomAnalysisService.ts`. -/
structure SymptomRecommendation where
  homeRemedies : List String
  overTheCounterMedicines : List String
  whenToSeeDoctor : List String
  generalAdvice : List String
  severity : String
deriving DecidableEq, Repr

/-- Shape `SymptomAnalysis` of `symptomAnalysisService.ts`. -/
structure SvcSymptomAnalysis where
  possibleConditions : List String
  recommendations : SymptomRecommendation
  confidence : Nat
  urgency : String
deriving DecidableEq, Repr

/-- Entry of `SYMPTOM_DATABASE.neurological` keyed "Headaches / Migraines". -/
def dbHeadachesMigraines : SvcSymptomAnalysis where
  possibleConditions := ["Tension headache", "Migraine", "Sinus headache", "Cluster headache"]
  recommendations := {
    homeRemedies := [
      "Apply cold or warm compress to head and neck",
      "Rest in a dark, quiet room",
      "Stay hydrated - drink plenty of water",
      "Practice relaxation techniques or meditation",
      "Gentle neck and shoulder stretches"]
    overTheCounterMedicines := [
      "Ibuprofen (Advil, Motrin) - 200-400mg every 4-6 hours",
      "Acetaminophen (Tylenol) - 500-1000mg every 4-6 hours",
      "Aspirin - 325-650mg every 4 hours",
      "Naproxen (Aleve) - 220mg every 8-12 hours"]
    whenToSeeDoctor := [
      "Severe headache with fever, stiff neck, or rash",
      "Sudden, severe headache (thunderclap headache)",
      "Headache after head injury",
      "Headache with vision changes, confusion, or weakness",
      "Headaches that worsen or change pattern"]
    generalAdvice := [
      "Keep a headache diary to identify triggers",
      "Maintain regular sleep schedule",
      "Limit caffeine and alcohol intake",
      "Manage stress through exercise and relaxation"]
    severity := "medium" }
  confidence := 85
  urgency := "Monitor symptoms and seek medical attention if severe or persistent"

/-- Entry of `SYMPTOM_DATABASE.neurological` keyed "Memory problems". -/
def dbMemoryProblems : SvcSymptomAnalysis where
  possibleConditions := [
    "Age-related memory decline", "Stress-related forgetfulness",
    "Sleep deprivation", "Medication side effects"]
  recommendations := {
    homeRemedies := [
      "Get adequate sleep (7-9 hours per night)",
      "Stay mentally active with puzzles, reading, or learning",
      "Maintain social connections and conversations",
      "Practice mindfulness and meditation",
      "Keep a daily planner or use reminder apps"]
    overTheCounterMedicines := [
      "Ginkgo biloba supplements (120-240mg daily)",
      "Omega-3 fatty acids (1000-2000mg daily)",
      "Vitamin B12 (1000-2000mcg daily) if deficient",
      "Magnesium supplements (200-400mg daily)"]
    whenToSeeDoctor := [
      "Significant memory loss affecting daily activities",
      "Confusion or disorientation",
      "Difficulty with familiar tasks",
      "Personality or mood changes",
      "Memory problems that worsen rapidly"]
    generalAdvice := [
      "Exercise regularly to improve brain function",
      "Eat a brain-healthy diet (Mediterranean diet)",
      "Manage chronic conditions like diabetes and hypertension",
      "Avoid excessive alcohol consumption"]
    severity := "medium" }
  confidence := 80
  urgency := "Schedule appointment if symptoms persist or worsen"

/-- Entry of `SYMPTOM_DATABASE.cardiovascular` keyed "Chest pain". -/
def dbChestPain : SvcSymptomAnalysis where
  possibleConditions := ["Angina", "Heart attack", "Costochondritis", "Anxiety", "GERD"]
  recommendations := {
    homeRemedies := [
      "Rest and avoid physical exertion",
      "Apply warm compress to chest area",
      "Practice deep breathing exercises",
      "Stay calm and reduce stress",
      "Avoid heavy meals and caffeine"]
    overTheCounterMedicines := [
      "Antacids if GERD-related (Tums, Rolaids)",
      "Aspirin 325mg (only if prescribed by doctor)",
      "Ibuprofen for inflammation (if not heart-related)"]
    whenToSeeDoctor := [
      "Severe chest pain or pressure",
      "Pain radiating to arm, jaw, or back",
      "Shortness of breath or sweating",
      "Nausea or dizziness with chest pain",
      "Chest pain lasting more than 15 minutes"]
    generalAdvice := [
      "Call emergency services (911) for severe chest pain",
      "Avoid smoking and secondhand smoke",
      "Maintain healthy weight and diet",
      "Manage stress and anxiety"]
    severity := "high" }
  confidence := 90
  urgency := "Seek immediate medical attention for severe chest pain"

/-- Entry of `SYMPTOM_DATABASE.cardiovascular` keyed "Shortness of breath". -/
def dbShortnessOfBreath : SvcSymptomAnalysis where
  possibleConditions := ["Asthma", "Anxiety", "COPD", "Heart failure", "Pneumonia"]
  recommendations := {
    homeRemedies := [
      "Sit upright and lean forward slightly",
      "Practice pursed-lip breathing",
      "Use a fan to circulate air",
      "Stay calm and avoid panic",
      "Remove tight clothing around chest"]
    overTheCounterMedicines := [
      "Antihistamines for allergies (Claritin, Zyrtec)",
      "Decongestants for nasal congestion (Sudafed)",
      "Inhalers (if prescribed by doctor)"]
    whenToSeeDoctor := [
      "Severe shortness of breath at rest",
      "Blue lips or fingernails",
      "Chest pain with breathing difficulty",
      "High fever with breathing problems",
      "Sudden onset of severe breathing difficulty"]
    generalAdvice := [
      "Avoid triggers like smoke, dust, or allergens",
      "Maintain good indoor air quality",
      "Stay hydrated and avoid dehydration",
      "Exercise regularly to improve lung function"]
    severity := "high" }
  confidence := 85
  urgency := "Seek immediate medical attention if severe"

/-- Entry of `SYMPTOM_DATABASE.systemic` keyed "Fever". -/
def dbFever : SvcSymptomAnalysis where
  possibleConditions := [
    "Viral infection", "Bacterial infection", "Inflammatory condition", "Heat exhaustion"]
  recommendations := {
    homeRemedies := [
      "Rest and get plenty of sleep",
      "Stay hydrated with water, herbal teas, or broth",
      "Apply cool, damp cloths to forehead and body",
      "Take lukewarm baths or showers",
      "Wear lightweight, breathable clothing"]
    overTheCounterMedicines := [
      "Acetaminophen (Tylenol) - 500-1000mg every 4-6 hours",
      "Ibuprofen (Advil) - 200-400mg every 4-6 hours",
      "Aspirin - 325-650mg every 4 hours (adults only)"]
    whenToSeeDoctor := [
      "Fever above 103°F (39.4°C) in adults",
      "Fever lasting more than 3 days",
      "Fever with severe headache or stiff neck",
      "Fever with rash or difficulty breathing",
      "Fever in infants under 3 months"]
    generalAdvice := [
      "Monitor temperature regularly",
      "Avoid alcohol and caffeine",
      "Eat light, easily digestible foods",
      "Get adequate rest and avoid overexertion"]
    severity := "medium" }
  confidence := 90
  urgency := "Monitor temperature and seek medical attention if high or persistent"

/-- Entry of `SYMPTOM_DATABASE.digestive` keyed "Abdominal pain". -/
def dbAbdominalPain : SvcSymptomAnalysis where
  possibleConditions := ["Indigestion", "Gas", "Constipation", "Food intolerance", "Gastritis"]
  recommendations := {
    homeRemedies := [
      "Apply heat pad or warm compress to abdomen",
      "Drink peppermint or ginger tea",
      "Practice gentle abdominal massage",
      "Try the BRAT diet (bananas, rice, applesauce, toast)",
      "Stay hydrated with clear fluids"]
    overTheCounterMedicines := [
      "Antacids (Tums, Rolaids, Maalox)",
      "Simethicone for gas (Gas-X, Mylicon)",
      "Pepto-Bismol for stomach upset",
      "Probiotics for digestive health"]
    whenToSeeDoctor := [
      "Severe or persistent abdominal pain",
      "Pain with fever, vomiting, or diarrhea",
      "Blood in stool or vomit",
      "Pain that worsens with movement",
      "Abdominal pain with chest pain"]
    generalAdvice := [
      "Eat smaller, more frequent meals",
      "Avoid spicy, fatty, or acidic foods",
      "Manage stress and anxiety",
      "Keep a food diary to identify triggers"]
    severity := "medium" }
  confidence := 85
  urgency := "Seek medical attention if severe or persistent"

/-- Per-domain symptom tables of `SYMPTOM_DATABASE` (key lookup on the inner
object literal). -/
def domainTable (domain : String) : Option (String → Option SvcSymptomAnalysis) :=
  if domain = "neurological" then
    some fun s =>
      if s = "Headaches / Migraines" then some dbHeadachesMigraines
      else if s = "Memory problems" then some dbMemoryProblems
      else none
  else if domain = "cardiovascular" then
    some fun s =>
      if s = "Chest pain" then some dbChestPain
      else if s = "Shortness of breath" then some dbShortnessOfBreath
      else none
  else if domain = "systemic" then
    some fun s => if s = "Fever" then some dbFever else none
  else if domain = "digestive" then
    some fun s => if s = "Abdominal pain" then some dbAbdominalPain else none
  else none

/-- Function `SymptomAnalysisService.getDefaultAnalysis`. -/
def getDefaultAnalysis : SvcSymptomAnalysis where
  possibleConditions := ["General health concern"]
  recommendations := {
    homeRemedies := [
      "Get adequate rest and sleep",
      "Stay hydrated with water",
      "Eat a balanced diet",
      "Practice stress management techniques",
      "Maintain good hygiene"]
    overTheCounterMedicines := [
      "Consult with pharmacist for appropriate OTC medications",
      "Consider multivitamins if diet is inadequate",
      "Pain relievers as needed (acetaminophen or ibuprofen)"]
    whenToSeeDoctor := [
      "Symptoms persist for more than a few days",
      "Symptoms worsen or become severe",
      "New or unusual symptoms develop",
      "Concern about your health condition"]
    generalAdvice := [
      "Monitor your symptoms closely",
      "Maintain a healthy lifestyle",
      "Keep track of symptom patterns",
      "Don\x27t hesitate to seek medical advice when needed"]
    severity := "low" }
  confidence := 60
  urgency := "Monitor symptoms and consult healthcare provider if needed"

/-- Function `SymptomAnalysisService.analyzeSymptoms`: looks up the domain table,
indexes it with `symptoms[0]` (which is `undefined` on an empty array, so
the inner lookup misses), and falls back to the default analysis. -/
def svcAnalyzeSymptoms (domain : String) (symptoms : List String) : SvcSymptomAnalysis :=
  match domainTable domain with
  | none => getDefaultAnalysis
  | some tbl =>
    match symptoms.head? with
    | none => getDefaultAnalysis
    | some primarySymptom =>
      match tbl primarySymptom with
      | some analysis => analysis
      | none => getDefaultAnalysis

/-- Every result of `svcAnalyzeSymptoms` is the default analysis or one of
the six database entries. -/
theorem svcAnalyzeSymptoms_cases (domain : String) (symptoms : List String) :
    svcAnalyzeSymptoms domain symptoms = getDefaultAnalysis ∨
      svcAnalyzeSymptoms domain symptoms ∈
        [dbHeadachesMigraines, dbMemoryProblems, dbChestPain, dbShortnessOfBreath,
          dbFever, dbAbdominalPain] := by
  unfold svcAnalyzeSymptoms domainTable
  have step : ∀ (tbl : String → Option SvcSymptomAnalysis),
      (∀ s, tbl s = none ∨ tbl s ∈ [some dbHeadachesMigraines, some dbMemoryProblems,
        some dbChestPain, some dbShortnessOfBreath, some dbFever, some dbAbdominalPain]) →
      (match symptoms.head? with
        | none => getDefaultAnalysis
        | some p =>
          match tbl p with
          | some analysis => analysis
          | none => getDefaultAnalysis) = getDefaultAnalysis ∨
      (match symptoms.head? with
        | none => getDefaultAnalysis
        | some p =>
          match tbl p with
          | some analysis => analysis
          | none => getDefaultAnalysis) ∈
        [dbHeadachesMigraines, dbMemoryProblems, dbChestPain, dbShortnessOfBreath,
          dbFever, dbAbdominalPain] := by
    intro tbl htbl
    cases symptoms with
    | nil => exact Or.inl rfl
    | cons s rest =>
      simp only [List.head?_cons]
      rcases htbl s with h | h
      · rw [h]; exact Or.inl rfl
      · simp only [List.mem_cons, List.not_mem_nil, or_false] at h
        rcases h with h | h | h | h | h | h <;> rw [h] <;> simp
  split_ifs
  · exact step _ (fun s => by split_ifs <;> simp)
  · exact step _ (fun s => by split_ifs <;> simp)
  · exact step _ (fun s => by split_ifs <;> simp)
  · exact step _ (fun s => by split_ifs <;> simp)
  · exact Or.inl rfl

/-- C10: `SymptomAnalysisService.analyzeSymptoms` depends only on the domain
and the first symptom; it returns the default analysis (confidence 60,
severity low) for unknown domains, empty symptom lists, and unknown first
symptoms; and its confidence always lies between 60 and 90. -/
theorem symptomAnalysisService_properties :
    (∀ (domain : String) (s1 s2 : List String), s1.head? = s2.head? →
      svcAnalyzeSymptoms domain s1 = svcAnalyzeSymptoms domain s2) ∧
    (∀ (domain : String) (symptoms : List String),
      domain ∉ ["neurological", "cardiovascular", "systemic", "digestive"] →
      svcAnalyzeSymptoms domain symptoms = getDefaultAnalysis) ∧
    (∀ domain : String, svcAnalyzeSymptoms domain [] = getDefaultAnalysis) ∧
    (∀ (domain : String) (tbl : String → Option SvcSymptomAnalysis)
      (s : String) (rest : List String), domainTable domain = some tbl → tbl s = none →
      svcAnalyzeSymptoms domain (s :: rest) = getDefaultAnalysis) ∧
    ((getDefaultAnalysis.confidence = 60 ∧
        getDefaultAnalysis.recommendations.severity = "low") ∧
      ∀ (domain : String) (symptoms : List String),
        60 ≤ (svcAnalyzeSymptoms domain symptoms).confidence ∧
          (svcAnalyzeSymptoms domain symptoms).confidence ≤ 90) := by
  refine ⟨?_, ?_, ?_, ?_, ⟨by decide, by decide⟩, ?_⟩
  · intro domain s1 s2 h
    unfold svcAnalyzeSymptoms
    rw [h]
  · intro domain symptoms h
    unfold svcAnalyzeSymptoms domainTable
    simp only [List.mem_cons, List.mem_singleton, not_or] at h
    obtain ⟨h1, h2, h3, h4, _⟩ := h
    rw [if_neg h1, if_neg h2, if_neg h3, if_neg h4]
  · intro domain
    unfold svcAnalyzeSymptoms
    cases domainTable domain <;> rfl
  · intro domain tbl s rest htbl hmiss
    unfold svcAnalyzeSymptoms
    rw [htbl]
    simp only [List.head?_cons]
    rw [hmiss]
  · intro domain symptoms
    rcases svcAnalyzeSymptoms_cases domain symptoms with h | h
    · rw [h]; exact ⟨by decide, by decide⟩
    · simp only [List.mem_cons, List.not_mem_nil, or_false] at h
      rcases h with h | h | h | h | h | h <;> rw [h] <;> exact ⟨by decide, by decide⟩

theorem symptomAnalysisService_properties_witness :
    svcAnalyzeSymptoms "systemic" ["Fever"] = svcAnalyzeSymptoms "systemic" ["Fever", "Chills"] ∧
    svcAnalyzeSymptoms "dermatology" ["Rash"] = getDefaultAnalysis ∧
    svcAnalyzeSymptoms "systemic" [] = getDefaultAnalysis ∧
    svcAnalyzeSymptoms "systemic" ["Chills"] = getDefaultAnalysis ∧
    (60 ≤ (svcAnalyzeSymptoms "systemic" ["Fever"]).confidence ∧
      (svcAnalyzeSymptoms "systemic" ["Fever"]).confidence ≤ 90) := by
  obtain ⟨hdep, hdom, hempty, hmiss, hdefault, hconf⟩ := symptomAnalysisService_properties
  exact ⟨hdep "systemic" ["Fever"] ["Fever", "Chills"] (by decide),
    hdom "dermatology" ["Rash"] (by decide),
    hempty "systemic",
    hmiss "systemic" (fun s => if s = "Fever" then some dbFever else none) "Chills" []
      (by rfl) (by rfl),
    hconf "systemic" ["Fever"]⟩

/- ===== Haversine distance (aiService.ts, three identical copies) ===== -/

/-- Model of JavaScript `Math.atan2`, on idealised reals. -/
noncomputable def atan2 (y x : ℝ) : ℝ :=
  if 0 < x then Real.arctan (y / x)
  else if x < 0 then
    if 0 ≤ y then Real.arctan (y / x) + Real.pi else Real.arctan (y / x) - Real.pi
  else if 0 < y then Real.pi / 2
  else if y < 0 then -(Real.pi / 2)
  else 0

/-- The intermediate value `a` of the Haversine implementation:
`sin(dLat/2)^2 + cos(lat1 deg) * cos(lat2 deg) * sin(dLon/2)^2`. -/
noncomputable def havA (lat1 lon1 lat2 lon2 : ℝ) : ℝ :=
  Real.sin ((lat2 - lat1) * Real.pi / 180 / 2) * Real.sin ((lat2 - lat1) * Real.pi / 180 / 2) +
    Real.cos (lat1 * Real.pi / 180) * Real.cos (lat2 * Real.pi / 180) *
      Real.sin ((lon2 - lon1) * Real.pi / 180 / 2) *
      Real.sin ((lon2 - lon1) * Real.pi / 180 / 2)

/-- Function `calculateDistance` (identical in `GeolocationService`,
`GoogleMapsService` and the chat interface): Earth radius 6371 km times
`c = 2 * atan2(sqrt a, sqrt (1 - a))`, with JavaScript floating point
idealised as real arithmetic. -/
noncomputable def calculateDistance (lat1 lon1 lat2 lon2 : ℝ) : ℝ :=
  6371 * (2 * atan2 (Real.sqrt (havA lat1 lon1 lat2 lon2))
    (Real.sqrt (1 - havA lat1 lon1 lat2 lon2)))

theorem havA_symm (lat1 lon1 lat2 lon2 : ℝ) :
    havA lat1 lon1 lat2 lon2 = havA lat2 lon2 lat1 lon1 := by
  have s1 : Real.sin ((lat1 - lat2) * Real.pi / 180 / 2) =
      -Real.sin ((lat2 - lat1) * Real.pi / 180 / 2) := by
    rw [show (lat1 - lat2) * Real.pi / 180 / 2 = -((lat2 - lat1) * Real.pi / 180 / 2) by ring,
      Real.sin_neg]
  have s2 : Real.sin ((lon1 - lon2) * Real.pi / 180 / 2) =
      -Real.sin ((lon2 - lon1) * Real.pi / 180 / 2) := by
    rw [show (lon1 - lon2) * Real.pi / 180 / 2 = -((lon2 - lon1) * Real.pi / 180 / 2) by ring,
      Real.sin_neg]
  unfold havA
  rw [s1, s2]
  ring

/-- C6: the Haversine `calculateDistance` is symmetric in its two coordinate
pairs, and returns 0 when both points coincide. -/
theorem calculateDistance_symm_and_zero :
    (∀ lat1 lon1 lat2 lon2 : ℝ,
      calculateDistance lat1 lon1 lat2 lon2 = calculateDistance lat2 lon2 lat1 lon1) ∧
    (∀ lat lon : ℝ, calculateDistance lat lon lat lon = 0) := by
  constructor
  · intro lat1 lon1 lat2 lon2
    unfold calculateDistance
    rw [havA_symm]
  · intro lat lon
    have ha : havA lat lon lat lon = 0 := by
      unfold havA
      simp
    unfold calculateDistance
    rw [ha]
    rw [Real.sqrt_zero, show (1 : ℝ) - 0 = 1 by ring, Real.sqrt_one]
    unfold atan2
    rw [if_pos one_pos]
    norm_num

/- ===== GoogleMapsService.findNearbyDoctors ===== -/

/-- One entry of the Google Places `results` array, as the code reads it
(`rating` and `user_ratings_total` may be absent, read with `|| 0`). -/
structure Place where
  place_id : String
  name : String
  rating : Option ℝ
  user_ratings_total : Option Nat
  vicinity : String
  lat : ℝ
  lng : ℝ
  types : List String

/-- The `Doctor` interface fields relevant to the claims (contact details
fetched from the Place Details call are not modelled: a failure there is
caught locally and only blanks the phone/website strings). -/
structure Doctor where
  id : String
  name : String
  specialty : String
  address : String
  lat : ℝ
  lng : ℝ
  rating : ℝ
  reviews : Nat
  distance : ℝ
  qualifications : List String

/-- The `specialtyMap` dictionary of `extractSpecialty`. -/
def specialtyFor (t : String) : Option String :=
  if t = "hospital" then some "General Medicine"
  else if t = "doctor" then some "General Practice"
  else if t = "dentist" then some "Dentistry"
  else if t = "pharmacy" then some "Pharmacy"
  else if t = "physiotherapist" then some "Physiotherapy"
  else if t = "psychologist" then some "Psychology"
  else if t = "cardiologist" then some "Cardiology"
  else if t = "dermatologist" then some "Dermatology"
  else if t = "pediatrician" then some "Pediatrics"
  else if t = "gynecologist" then some "Gynecology"
  else none

/-- Function `GoogleMapsService.extractSpecialty`: first type with a dictionary
entry, else General Practice. -/
def extractSpecialty (types : List String) : String :=
  (types.findSome? specialtyFor).getD "General Practice"

/-- Conversion of one Places result to a `Doctor`, including the Haversine
distance from the query point. -/
noncomputable def toDoctor (lat lon : ℝ) (p : Place) : Doctor where
  id := p.place_id
  name := p.name
  specialty := extractSpecialty p.types
  address := p.vicinity
  lat := p.lat
  lng := p.lng
  rating := p.rating.getD 0
  reviews := p.user_ratings_total.getD 0
  distance := calculateDistance lat lon p.lat p.lng
  qualifications := []

/-- The comparator passed to `doctors.sort`:
`ratingDiff = b.rating - a.rating; if nonzero return it; else a.distance - b.distance`. -/
noncomputable def docCmp (a b : Doctor) : ℝ :=
  if b.rating - a.rating ≠ 0 then b.rating - a.rating else a.distance - b.distance

/-- Relation: `a` sorts no later than `b` under the comparator. -/
def docLe (a b : Doctor) : Prop := docCmp a b ≤ 0

theorem docLe_iff (a b : Doctor) :
    docLe a b ↔ b.rating < a.rating ∨ (b.rating = a.rating ∧ a.distance ≤ b.distance) := by
  unfold docLe docCmp
  by_cases h : b.rating - a.rating ≠ 0
  · rw [if_pos h]
    constructor
    · intro hle
      left
      rcases lt_or_eq_of_le (by linarith : b.rating ≤ a.rating) with h' | h'
      · exact h'
      · exact absurd (by linarith) h
    · rintro (h' | ⟨h', _⟩)
      · linarith
      · exact absurd (by linarith) h
  · rw [if_neg h]
    push_neg at h
    constructor
    · intro hle
      right
      exact ⟨by linarith, by linarith⟩
    · rintro (h' | ⟨_, h'⟩)
      · linarith
      · linarith

noncomputable instance : DecidableRel docLe := fun _ _ => Classical.propDecidable _

instance : IsTotal Doctor docLe :=
  ⟨fun a b => by
    rw [docLe_iff, docLe_iff]
    rcases lt_trichotomy a.rating b.rating with h | h | h
    · right; left; exact h
    · rcases le_total a.distance b.distance with hd | hd
      · left; right; exact ⟨h.symm, hd⟩
      · right; right; exact ⟨h, hd⟩
    · left; left; exact h⟩

instance : IsTrans Doctor docLe :=
  ⟨fun a b c hab hbc => by
    rw [docLe_iff] at *
    rcases hab with h1 | ⟨h1, h1'⟩ <;> rcases hbc with h2 | ⟨h2, h2'⟩
    · left; exact h2.trans h1
    · left; exact h2 ▸ h1
    · left; exact h1 ▸ h2
    · right; exact ⟨h2.trans h1, h1'.trans h2'⟩⟩

/-- The `doctors.sort(comparator)` step, modelled as a sort with respect to
the comparator order (ECMAScript guarantees the result is sorted by a
consistent comparator). -/
noncomputable def sortDoctors (l : List Doctor) : List Doctor :=
  List.insertionSort docLe l

/-- Function `GoogleMapsService.getMockDoctors`, the hard-coded fallback list. -/
noncomputable def getMockDoctors (latitude longitude : ℝ) : List Doctor :=
  [{ id := "mock-1"
     name := "Dr. Sarah Johnson"
     specialty := "General Practice"
     address := "123 Medical Center Dr"
     lat := latitude + 0.01
     lng := longitude + 0.01
     rating := 4.8
     reviews := 156
     distance := 1.2
     qualifications := ["MD", "MBBS"] },
   { id := "mock-2"
     name := "Dr. Michael Chen"
     specialty := "Cardiology"
     address := "456 Heart Clinic Ave"
     lat := latitude + 0.02
     lng := longitude - 0.01
     rating := 4.9
     reviews := 203
     distance := 2.1
     qualifications := ["MD", "Cardiology Specialist"] }]

/-- Function `GoogleMapsService.findNearbyDoctors`.  The network interaction is
abstracted into `resp`: `Except.ok places` is a fetch whose `status` was
`OK`, every other failure (network error, non-OK status, JSON error) lands
in the catch block, which returns the mock list. -/
noncomputable def findNearbyDoctors (latitude longitude : ℝ)
    (resp : Except String (List Place)) : List Doctor :=
  match resp with
  | .ok places => sortDoctors (places.map (toDoctor latitude longitude))
  | .error _ => getMockDoctors latitude longitude

/-- C7: on the success path the returned list is sorted by rating
descending, ties broken by ascending Haversine distance from the query
point; on any failure the hard-coded mock list is returned. -/
theorem findNearbyDoctors_sorted_and_fallback :
    (∀ (latitude longitude : ℝ) (places : List Place),
      List.Chain'
        (fun a b : Doctor => b.rating ≤ a.rating ∧
          (a.rating = b.rating → a.distance ≤ b.distance))
        (findNearbyDoctors latitude longitude (Except.ok places))) ∧
    (∀ (latitude longitude : ℝ) (e : String),
      findNearbyDoctors latitude longitude (Except.error e) =
        getMockDoctors latitude longitude) := by
  constructor
  · intro latitude longitude places
    have hs : List.Sorted docLe (sortDoctors (places.map (toDoctor latitude longitude))) :=
      List.sorted_insertionSort docLe _
    have hc : List.Chain' docLe (sortDoctors (places.map (toDoctor latitude longitude))) :=
      List.Pairwise.chain' hs
    refine hc.imp ?_
    intro a b hab
    rcases (docLe_iff a b).mp hab with h | ⟨h, h'⟩
    · exact ⟨le_of_lt h, fun he => absurd (he ▸ h) (lt_irrefl _)⟩
    · exact ⟨le_of_eq h, fun _ => h'⟩
  · intro _ _ _
    rfl

/- ===== Express medical-records backend ===== -/

/-- A stored medical record (the Mongoose `MedicalRecord` fields the routes
touch; `timestamp` is the schema `Date.now` default as epoch milliseconds). -/
structure MedRecord where
  userId : String
  journeyDescription : String
  symptoms : List String
  processedSummary : String
  encryptedData : Option String
  timestamp : Nat
deriving DecidableEq, Repr

/-- A record as decorated by the list route: the original document plus the
`decryptedData` field, and the `decryptionError` flag the unnamed-bundle
variant adds on a per-record failure. -/
structure DecRecord where
  record : MedRecord
  decryptedData : Option String
  decryptionError : Bool
deriving DecidableEq, Repr

/-- Response of the list route, reduced to status code and records array. -/
structure ListResp where
  status : Nat
  records : List DecRecord
deriving DecidableEq, Repr

/-- The MongoDB `.sort({ timestamp: -1 })` order: later timestamps first. -/
def recLe (a b : MedRecord) : Prop := b.timestamp ≤ a.timestamp

instance : DecidableRel recLe := fun a b => Nat.decLe b.timestamp a.timestamp

instance : IsTotal MedRecord recLe := ⟨fun a b => Nat.le_total b.timestamp a.timestamp⟩

instance : IsTrans MedRecord recLe := ⟨fun _ _ _ hab hbc => Nat.le_trans hbc hab⟩

/-- Query of the list route (find by userId, sort by timestamp -1), modelled as a
filter over the stored collection followed by a sort on the comparator the
query requests. -/
def findByUserSorted (db : List MedRecord) (userId : String) : List MedRecord :=
  List.insertionSort recLe (db.filter (fun r => r.userId == userId))

/-- Model of the JavaScript check `s.trim().length === 0`. -/
def jsTrimEmpty (s : String) : Bool := s.toList.all Char.isWhitespace

/-- Per-record decoration of the unnamed-bundle list route: the try block
decrypts (when `encryptedData` is set) and JSON-parses (when the decrypted
string is truthy); the catch block returns the record flagged with
`decryptionError: true`. -/
def decorateP14 (decr jsonParse : String → Except String String) (r : MedRecord) : DecRecord :=
  match r.encryptedData with
  | none => ⟨r, none, false⟩
  | some e =>
    match decr e with
    | .error _ => ⟨r, none, true⟩
    | .ok d =>
      if d = "" then ⟨r, none, false⟩
      else
        match jsonParse d with
        | .error _ => ⟨r, none, true⟩
        | .ok v => ⟨r, some v, false⟩

/-- Route `GET /api/medical-records/user/:userId` of the unnamed server bundle
(part_014): 400 on a missing userId, 200 with an empty array when the user
has no records, otherwise 200 with every record decorated per-record. -/
def listHandlerP14 (decr jsonParse : String → Except String String)
    (db : List MedRecord) (userId : String) : ListResp :=
  if userId = "" then ⟨400, []⟩
  else
    let records := findByUserSorted db userId
    if records.isEmpty then ⟨200, []⟩
    else ⟨200, records.map (decorateP14 decr jsonParse)⟩

/-- Per-record decoration of `src/server/routes/medicalRecords.ts`: no
try/catch around `decryptData`, so a failure propagates to the route-level
catch. -/
def decorateSrv (decr : String → Except String String) (r : MedRecord) :
    Except String DecRecord :=
  match r.encryptedData with
  | none => .ok ⟨r, none, false⟩
  | some e => (decr e).map (fun d => ⟨r, some d, false⟩)

/-- The `records.map(...)` call of the src-route variant, run inside the
route-level try: the first `decryptData` throw aborts the whole traversal. -/
def decorateAllSrv (decr : String → Except String String) :
    List MedRecord → Except String (List DecRecord)
  | [] => .ok []
  | r :: t =>
    match decorateSrv decr r with
    | .error e => .error e
    | .ok d =>
      match decorateAllSrv decr t with
      | .error e => .error e
      | .ok ds => .ok (d :: ds)

/-- Route `GET /api/medical-records/user/:userId` of
`src/server/routes/medicalRecords.ts`: validates the userId, fetches and
decorates; any `decryptData` throw reaches the route catch, which answers
500. -/
def listHandlerSrv (decr : String → Except String String)
    (db : List MedRecord) (userId : String) : ListResp :=
  if userId = "" then ⟨400, []⟩
  else if jsTrimEmpty userId then ⟨400, []⟩
  else
    match decorateAllSrv decr (findByUserSorted db userId) with
    | .error _ => ⟨500, []⟩
    | .ok decryptedRecords =>
      if decryptedRecords.isEmpty then ⟨200, []⟩ else ⟨200, decryptedRecords⟩

/-- Request body of `POST /api/medical-records`; absent or null fields are
`none`, and JavaScript falsiness of a present string is emptiness. -/
structure PostBody where
  userId : Option String
  journeyDescription : Option String

/-- JavaScript `!x` on an optional string field. -/
def jsFalsy : Option String → Bool
  | none => true
  | some s => s == ""

/-- The `processMedicalJourney` result shape. -/
structure Processed where
  symptoms : List String
  summary : String
  insights : String

/-- Response of the create route, reduced to status code and error field. -/
structure PostResp where
  status : Nat
  error : Option String
deriving DecidableEq, Repr

/-- Which side effects a create request performed. -/
structure Effects where
  llmCalled : Bool
  encrypted : Bool
  saved : Bool
deriving DecidableEq, Repr

/-- Route `POST /api/medical-records` of `src/server/routes/medicalRecords.ts`.
`llm` is `processMedicalJourney`, `enc` is `encryptData`, `stringify` the
`JSON.stringify` of the payload; the triple returned is (response, stored
collection after the request, effects performed). -/
def postHandlerSrv (llm : String → Except String Processed)
    (enc : String → String) (stringify : String → Processed → String)
    (db : List MedRecord) (now : Nat) (body : PostBody) :
    PostResp × List MedRecord × Effects :=
  if jsFalsy body.userId || jsFalsy body.journeyDescription then
    (⟨400, some "Missing required fields"⟩, db, ⟨false, false, false⟩)
  else
    let jd := body.journeyDescription.getD ""
    if jsTrimEmpty jd then
      (⟨400, some "Invalid journeyDescription"⟩, db, ⟨false, false, false⟩)
    else
      match llm jd with
      | .error _ => (⟨500, some "Failed to create medical record"⟩, db, ⟨true, false, false⟩)
      | .ok processedData =>
        let encryptedData := enc (stringify jd processedData)
        (⟨201, none⟩,
          db ++ [{ userId := body.userId.getD ""
                   journeyDescription := jd
                   symptoms := processedData.symptoms
                   processedSummary := processedData.summary
                   encryptedData := some encryptedData
                   timestamp := now }],
          ⟨true, true, true⟩)

/-- Route `POST /api/medical-records` of the unnamed server bundle (part_014):
same validation of the two fields, then a 500 when `processMedicalJourney`
throws or returns a falsy value, otherwise encrypt, save and answer 201. -/
def postHandlerP14 (llm : String → Except String (Option Processed))
    (enc : String → String) (stringify : String → Processed → String)
    (db : List MedRecord) (now : Nat) (body : PostBody) :
    PostResp × List MedRecord × Effects :=
  if jsFalsy body.userId || jsFalsy body.journeyDescription then
    (⟨400, some "Missing required fields"⟩, db, ⟨false, false, false⟩)
  else
    let jd := body.journeyDescription.getD ""
    match llm jd with
    | .error _ => (⟨500, some "Failed to create medical record"⟩, db, ⟨true, false, false⟩)
    | .ok none => (⟨500, some "Failed to process medical data"⟩, db, ⟨true, false, false⟩)
    | .ok (some processedData) =>
      let encryptedData := enc (stringify jd processedData)
      (⟨201, none⟩,
        db ++ [{ userId := body.userId.getD ""
                 journeyDescription := jd
                 symptoms := processedData.symptoms
                 processedSummary := processedData.summary
                 encryptedData := some encryptedData
                 timestamp := now }],
        ⟨true, true, true⟩)

/- ===== theorems for C3 and C5 ===== -/

/-- C3: whenever `userId` or `journeyDescription` is missing or falsy, both
create-route variants answer 400 with an error object, and neither the LLM
call, the encryption nor the save happens: the stored collection is
unchanged and all effect flags are off. -/
theorem postHandler_missing_fields_400
    (llmS : String → Except String Processed) (llmP : String → Except String (Option Processed))
    (enc : String → String) (stringify : String → Processed → String)
    (db : List MedRecord) (now : Nat) (body : PostBody)
    (h : (jsFalsy body.userId || jsFalsy body.journeyDescription) = true) :
    postHandlerSrv llmS enc stringify db now body =
      (⟨400, some "Missing required fields"⟩, db, ⟨false, false, false⟩) ∧
    postHandlerP14 llmP enc stringify db now body =
      (⟨400, some "Missing required fields"⟩, db, ⟨false, false, false⟩) := by
  constructor
  · unfold postHandlerSrv
    rw [if_pos h]
  · unfold postHandlerP14
    rw [if_pos h]

theorem postHandler_missing_fields_400_witness :
    (jsFalsy (PostBody.mk none (some "I had a headache")).userId ||
      jsFalsy (PostBody.mk none (some "I had a headache")).journeyDescription) = true ∧
    postHandlerSrv (fun _ => Except.error "no llm") (fun s => s) (fun _ _ => "")
        [] 0 (PostBody.mk none (some "I had a headache")) =
      (⟨400, some "Missing required fields"⟩, [], ⟨false, false, false⟩) ∧
    postHandlerP14 (fun _ => Except.error "no llm") (fun s => s) (fun _ _ => "")
        [] 0 (PostBody.mk none (some "I had a headache")) =
      (⟨400, some "Missing required fields"⟩, [], ⟨false, false, false⟩) := by
  refine ⟨by decide, ?_⟩
  exact postHandler_missing_fields_400 (fun _ => Except.error "no llm")
    (fun _ => Except.error "no llm") (fun s => s) (fun _ _ => "") [] 0
    (PostBody.mk none (some "I had a headache")) (by decide)

/-- C5: a userId that passes validation but owns no records gets a 200
response with an empty records array from both list-route variants. -/
theorem listHandler_empty_records_200
    (decr jsonParse : String → Except String String) (db : List MedRecord) (userId : String)
    (h0 : userId ≠ "") (h1 : jsTrimEmpty userId = false)
    (h2 : db.filter (fun r => r.userId == userId) = []) :
    listHandlerP14 decr jsonParse db userId = ⟨200, []⟩ ∧
      listHandlerSrv decr db userId = ⟨200, []⟩ := by
  have hfind : findByUserSorted db userId = [] := by
    unfold findByUserSorted
    rw [h2]
    rfl
  constructor
  · unfold listHandlerP14
    rw [if_neg h0, hfind]
    rfl
  · unfold listHandlerSrv
    rw [if_neg h0, if_neg (by simp [h1]), hfind]
    rfl

theorem listHandler_empty_records_200_witness :
    ("ghost" ≠ "" ∧ jsTrimEmpty "ghost" = false ∧
      List.filter (fun r => r.userId == "ghost")
        [MedRecord.mk "u1" "journey" [] "sum" none 5] = []) ∧
    listHandlerP14 (fun s => Except.ok s) (fun s => Except.ok s)
        [MedRecord.mk "u1" "journey" [] "sum" none 5] "ghost" = ⟨200, []⟩ ∧
    listHandlerSrv (fun s => Except.ok s)
        [MedRecord.mk "u1" "journey" [] "sum" none 5] "ghost" = ⟨200, []⟩ := by
  refine ⟨⟨by decide, by decide, by decide⟩, ?_⟩
  exact listHandler_empty_records_200 (fun s => Except.ok s) (fun s => Except.ok s)
    [MedRecord.mk "u1" "journey" [] "sum" none 5] "ghost"
    (by decide) (by decide) (by decide)

/- ===== theorems for C4 and C2 ===== -/

theorem decorateP14_record (decr jsonParse : String → Except String String) (r : MedRecord) :
    (decorateP14 decr jsonParse r).record = r := by
  unfold decorateP14
  split
  · rfl
  · split
    · rfl
    · split_ifs
      · rfl
      · split <;> rfl

theorem decorateSrv_record (decr : String → Except String String) (r : MedRecord)
    (d : DecRecord) (h : decorateSrv decr r = Except.ok d) : d.record = r := by
  unfold decorateSrv at h
  cases he : r.encryptedData with
  | none =>
    simp only [he] at h
    cases h
    rfl
  | some e =>
    simp only [he] at h
    cases hde : decr e with
    | error m => simp [hde, Except.map] at h
    | ok x =>
      simp only [hde, Except.map] at h
      cases h
      rfl

theorem decorateAllSrv_ok_map (decr : String → Except String String) :
    ∀ (l : List MedRecord) (ds : List DecRecord),
      decorateAllSrv decr l = Except.ok ds → ds.map DecRecord.record = l := by
  intro l
  induction l with
  | nil => intro ds h; cases h; rfl
  | cons r t ih =>
    intro ds h
    unfold decorateAllSrv at h
    cases hdr : decorateSrv decr r with
    | error e => rw [hdr] at h; cases h
    | ok d =>
      rw [hdr] at h
      cases hdt : decorateAllSrv decr t with
      | error e => rw [hdt] at h; cases h
      | ok ds' =>
        rw [hdt] at h
        cases h
        simp [decorateSrv_record decr r d hdr, ih ds' hdt]

/-- The sorted fetch is sorted by descending timestamp and is a permutation
of the user filter. -/
theorem findByUserSorted_spec (db : List MedRecord) (userId : String) :
    List.Chain' recLe (findByUserSorted db userId) ∧
      (findByUserSorted db userId).Perm (db.filter (fun r => r.userId == userId)) :=
  ⟨List.Pairwise.chain' (List.sorted_insertionSort recLe _),
    List.perm_insertionSort recLe _⟩

theorem map_record_decorateP14 (decr jsonParse : String → Except String String)
    (l : List MedRecord) :
    (l.map (decorateP14 decr jsonParse)).map DecRecord.record = l := by
  rw [List.map_map]
  have : DecRecord.record ∘ decorateP14 decr jsonParse = id := by
    funext r
    exact decorateP14_record decr jsonParse r
  rw [this, List.map_id]

/-- C4: the list route returns the user records in descending timestamp
order.  For the unnamed-bundle variant this holds unconditionally and the
returned records are exactly the user filter; for the src variant it holds
on the success path of the decryption traversal. -/
theorem listHandler_sorted_desc :
    (∀ (decr jsonParse : String → Except String String) (db : List MedRecord) (userId : String),
      List.Chain' (fun a b : DecRecord => b.record.timestamp ≤ a.record.timestamp)
        ((listHandlerP14 decr jsonParse db userId).records) ∧
      (userId ≠ "" →
        ((listHandlerP14 decr jsonParse db userId).records.map DecRecord.record).Perm
          (db.filter (fun r => r.userId == userId)))) ∧
    (∀ (decr : String → Except String String) (db : List MedRecord) (userId : String)
      (ds : List DecRecord),
      decorateAllSrv decr (findByUserSorted db userId) = Except.ok ds →
      userId ≠ "" → jsTrimEmpty userId = false →
      List.Chain' (fun a b : DecRecord => b.record.timestamp ≤ a.record.timestamp)
        ((listHandlerSrv decr db userId).records) ∧
      ((listHandlerSrv decr db userId).records.map DecRecord.record).Perm
        (db.filter (fun r => r.userId == userId))) := by
  constructor
  · intro decr jsonParse db userId
    obtain ⟨hchain, hperm⟩ := findByUserSorted_spec db userId
    unfold listHandlerP14
    by_cases h0 : userId = ""
    · rw [if_pos h0]
      exact ⟨List.chain'_nil, fun h => absurd h0 h⟩
    · rw [if_neg h0]
      dsimp only
      by_cases hemp : (findByUserSorted db userId).isEmpty
      · rw [if_pos hemp]
        have hnil : findByUserSorted db userId = [] := List.isEmpty_iff.mp hemp
        refine ⟨List.chain'_nil, fun _ => ?_⟩
        have : (db.filter (fun r => r.userId == userId)).Perm [] := by
          rw [← hnil]; exact hperm.symm
        simp [List.Perm.eq_nil this]
      · rw [if_neg hemp]
        dsimp only
        constructor
        · rw [List.chain'_map]
          refine hchain.imp ?_
          intro a b hab
          simpa [decorateP14_record] using hab
        · intro _
          rw [map_record_decorateP14]
          exact hperm
  · intro decr db userId ds hok h0 h1
    obtain ⟨hchain, hperm⟩ := findByUserSorted_spec db userId
    have hmap : ds.map DecRecord.record = findByUserSorted db userId :=
      decorateAllSrv_ok_map decr _ ds hok
    unfold listHandlerSrv
    rw [if_neg h0, if_neg (by simp [h1]), hok]
    dsimp only
    by_cases hemp : ds.isEmpty
    · rw [if_pos hemp]
      have hdsnil : ds = [] := List.isEmpty_iff.mp hemp
      have hnil : findByUserSorted db userId = [] := by
        rw [← hmap, hdsnil]; rfl
      refine ⟨List.chain'_nil, ?_⟩
      have : (db.filter (fun r => r.userId == userId)).Perm [] := by
        rw [← hnil]; exact hperm.symm
      simp [List.Perm.eq_nil this]
    · rw [if_neg hemp]
      dsimp only
      constructor
      · have hch : List.Chain' (fun a b : MedRecord => b.timestamp ≤ a.timestamp)
            (ds.map DecRecord.record) := by
          rw [hmap]; exact hchain
        exact (List.chain'_map DecRecord.record).mp hch
      · rw [hmap]; exact hperm

theorem listHandler_sorted_desc_witness :
    (List.Chain' (fun a b : DecRecord => b.record.timestamp ≤ a.record.timestamp)
      ((listHandlerP14 (fun s => Except.ok s) (fun s => Except.ok s)
        [MedRecord.mk "u1" "first" [] "s1" (some "c1") 3,
         MedRecord.mk "u2" "other" [] "s2" (some "c2") 9,
         MedRecord.mk "u1" "second" [] "s3" (some "c3") 7] "u1").records) ∧
    ((listHandlerP14 (fun s => Except.ok s) (fun s => Except.ok s)
        [MedRecord.mk "u1" "first" [] "s1" (some "c1") 3,
         MedRecord.mk "u2" "other" [] "s2" (some "c2") 9,
         MedRecord.mk "u1" "second" [] "s3" (some "c3") 7] "u1").records.map
        DecRecord.record).Perm
      (List.filter (fun r => r.userId == "u1")
        [MedRecord.mk "u1" "first" [] "s1" (some "c1") 3,
         MedRecord.mk "u2" "other" [] "s2" (some "c2") 9,
         MedRecord.mk "u1" "second" [] "s3" (some "c3") 7])) ∧
    (List.Chain' (fun a b : DecRecord => b.record.timestamp ≤ a.record.timestamp)
      ((listHandlerSrv (fun s => Except.ok s)
        [MedRecord.mk "u1" "first" [] "s1" (some "c1") 3,
         MedRecord.mk "u2" "other" [] "s2" (some "c2") 9,
         MedRecord.mk "u1" "second" [] "s3" (some "c3") 7] "u1").records) ∧
    ((listHandlerSrv (fun s => Except.ok s)
        [MedRecord.mk "u1" "first" [] "s1" (some "c1") 3,
         MedRecord.mk "u2" "other" [] "s2" (some "c2") 9,
         MedRecord.mk "u1" "second" [] "s3" (some "c3") 7] "u1").records.map
        DecRecord.record).Perm
      (List.filter (fun r => r.userId == "u1")
        [MedRecord.mk "u1" "first" [] "s1" (some "c1") 3,
         MedRecord.mk "u2" "other" [] "s2" (some "c2") 9,
         MedRecord.mk "u1" "second" [] "s3" (some "c3") 7])) := by
  have h14 := listHandler_sorted_desc.1 (fun s => Except.ok s) (fun s => Except.ok s)
    [MedRecord.mk "u1" "first" [] "s1" (some "c1") 3,
     MedRecord.mk "u2" "other" [] "s2" (some "c2") 9,
     MedRecord.mk "u1" "second" [] "s3" (some "c3") 7] "u1"
  have hsrv := listHandler_sorted_desc.2 (fun s => Except.ok s)
    [MedRecord.mk "u1" "first" [] "s1" (some "c1") 3,
     MedRecord.mk "u2" "other" [] "s2" (some "c2") 9,
     MedRecord.mk "u1" "second" [] "s3" (some "c3") 7] "u1"
    [DecRecord.mk (MedRecord.mk "u1" "second" [] "s3" (some "c3") 7) (some "c3") false,
     DecRecord.mk (MedRecord.mk "u1" "first" [] "s1" (some "c1") 3) (some "c1") false]
    (by rfl) (by decide) (by decide)
  exact ⟨⟨h14.1, h14.2 (by decide)⟩, hsrv.1, hsrv.2⟩

/-- C2 counterexample: in the `src/server/routes/medicalRecords.ts` variant
of the list route a single failing `decryptData` call is not caught
per-record; the request as a whole fails with a 500 response. -/
theorem listHandlerSrv_decryption_failure_500 :
    listHandlerSrv (fun _ => Except.error "Unsupported state or unable to authenticate data")
      [MedRecord.mk "u1" "journey" [] "sum" (some "blob") 5] "u1" = ⟨500, []⟩ := by
  decide

/-- Per-record behaviour of the unnamed-bundle decoration. -/
theorem decorateP14_spec (decr jsonParse : String → Except String String) (r : MedRecord)
    (e : String) (he : r.encryptedData = some e) :
    ((∃ msg, decr e = Except.error msg) →
      (decorateP14 decr jsonParse r).decryptionError = true ∧
        (decorateP14 decr jsonParse r).decryptedData = none) ∧
    (∀ s v, decr e = Except.ok s → s ≠ "" → jsonParse s = Except.ok v →
      (decorateP14 decr jsonParse r).decryptedData = some v ∧
        (decorateP14 decr jsonParse r).decryptionError = false) := by
  constructor
  · rintro ⟨msg, hmsg⟩
    unfold decorateP14
    rw [he]
    simp [hmsg]
  · intro s v hs hne hv
    unfold decorateP14
    rw [he]
    simp [hs, hne, hv]

/-- C2 (amended): in the unnamed-bundle variant of the list route, each
record is decorated in its own try/catch: a record whose decryption or
parsing fails is returned flagged `decryptionError` (with no decrypted
payload), records whose decryption succeeds carry their decrypted payload,
and the response is a 200 covering all of the user records either way. -/
theorem listHandlerP14_per_record_decryption_errors
    (decr jsonParse : String → Except String String) (db : List MedRecord) (userId : String)
    (h0 : userId ≠ "") (hne : db.filter (fun r => r.userId == userId) ≠ []) :
    (listHandlerP14 decr jsonParse db userId).status = 200 ∧
    (listHandlerP14 decr jsonParse db userId).records.map DecRecord.record
      = findByUserSorted db userId ∧
    ∀ d ∈ (listHandlerP14 decr jsonParse db userId).records, ∀ e,
      d.record.encryptedData = some e →
      ((∃ msg, decr e = Except.error msg) →
        d.decryptionError = true ∧ d.decryptedData = none) ∧
      (∀ s v, decr e = Except.ok s → s ≠ "" → jsonParse s = Except.ok v →
        d.decryptedData = some v ∧ d.decryptionError = false) := by
  have hperm : (findByUserSorted db userId).Perm (db.filter (fun r => r.userId == userId)) :=
    List.perm_insertionSort recLe _
  have hfne : findByUserSorted db userId ≠ [] := by
    intro hnil
    rw [hnil] at hperm
    exact hne (List.Perm.eq_nil hperm.symm)
  have hemp : (findByUserSorted db userId).isEmpty = false := by
    cases hfe : findByUserSorted db userId with
    | nil => exact absurd hfe hfne
    | cons a t => rfl
  have hred : listHandlerP14 decr jsonParse db userId =
      ⟨200, (findByUserSorted db userId).map (decorateP14 decr jsonParse)⟩ := by
    unfold listHandlerP14
    rw [if_neg h0]
    dsimp only
    rw [hemp]
    rfl
  refine ⟨by rw [hred], by rw [hred]; exact map_record_decorateP14 decr jsonParse _, ?_⟩
  intro d hd e he
  rw [hred] at hd
  simp only at hd
  rcases List.mem_map.mp hd with ⟨r, _, rfl⟩
  rw [decorateP14_record] at he
  exact decorateP14_spec decr jsonParse r e he

/-- Concrete decryption stub for the per-record witness: fails on the blob
`bad`, succeeds elsewhere. -/
def decrW (s : String) : Except String String :=
  if s = "bad" then Except.error "boom" else Except.ok s

/-- Concrete JSON-parse stub for the per-record witness. -/
def parseW (s : String) : Except String String := Except.ok s

/-- Concrete two-record store for the per-record witness. -/
def dbW : List MedRecord :=
  [MedRecord.mk "u1" "a" [] "s1" (some "bad") 3,
   MedRecord.mk "u1" "b" [] "s2" (some "good") 7]

theorem listHandlerP14_per_record_decryption_errors_witness :
    ("u1" ≠ "" ∧ dbW.filter (fun r => r.userId == "u1") ≠ []) ∧
    ((listHandlerP14 decrW parseW dbW "u1").status = 200 ∧
      (listHandlerP14 decrW parseW dbW "u1").records.map DecRecord.record
        = findByUserSorted dbW "u1" ∧
      ∀ d ∈ (listHandlerP14 decrW parseW dbW "u1").records, ∀ e,
        d.record.encryptedData = some e →
        ((∃ msg, decrW e = Except.error msg) →
          d.decryptionError = true ∧ d.decryptedData = none) ∧
        (∀ s v, decrW e = Except.ok s → s ≠ "" → parseW s = Except.ok v →
          d.decryptedData = some v ∧ d.decryptionError = false)) :=
  ⟨⟨by decide, by decide⟩,
    listHandlerP14_per_record_decryption_errors decrW parseW dbW "u1"
      (by decide) (by decide)⟩

/- ===== utils/encryption.ts ===== -/

/-!
`encryptData` / `decryptData` work on Node `Buffer`s: the plaintext is
UTF-8 encoded, AES-256-GCM is applied (a CTR keystream XOR plus an
authentication tag), and salt (64) ++ iv (16) ++ tag (16) ++ ciphertext is
base64-encoded into one string.  UTF-8 and base64 are given concrete
executable models; the key derivation, keystream and tag computation are
parameters, so the round-trip theorem holds for every choice of the
cryptographic primitives.
-/

/-- UTF-8 encoding of one Unicode scalar value (Buffer utf8 conversion
applied character-wise). -/
def utf8EncodeChar (c : Char) : List Nat :=
  let v := c.toNat
  if v < 128 then [v]
  else if v < 2048 then [192 + v / 64, 128 + v % 64]
  else if v < 65536 then [224 + v / 4096, 128 + v / 64 % 64, 128 + v % 64]
  else [240 + v / 262144, 128 + v / 4096 % 64, 128 + v / 64 % 64, 128 + v % 64]

/-- UTF-8 encoding of a string as a byte list. -/
def utf8Encode (s : String) : List Nat :=
  s.toList.foldr (fun c acc => utf8EncodeChar c ++ acc) []

/-- Decode one UTF-8 sequence: leading byte plus continuation bytes,
returning the scalar value and the remaining bytes. -/
def utf8DecodeOne (b0 : Nat) (t : List Nat) : Option (Char × List Nat) :=
  if b0 < 128 then some (Char.ofNat b0, t)
  else if b0 < 192 then none
  else if b0 < 224 then
    match t with
    | b1 :: t2 =>
      if 128 ≤ b1 ∧ b1 < 192 then some (Char.ofNat ((b0 - 192) * 64 + (b1 - 128)), t2)
      else none
    | [] => none
  else if b0 < 240 then
    match t with
    | b1 :: b2 :: t3 =>
      if (128 ≤ b1 ∧ b1 < 192) ∧ (128 ≤ b2 ∧ b2 < 192) then
        some (Char.ofNat ((b0 - 224) * 4096 + (b1 - 128) * 64 + (b2 - 128)), t3)
      else none
    | _ => none
  else if b0 < 248 then
    match t with
    | b1 :: b2 :: b3 :: t4 =>
      if ((128 ≤ b1 ∧ b1 < 192) ∧ (128 ≤ b2 ∧ b2 < 192)) ∧ (128 ≤ b3 ∧ b3 < 192) then
        some (Char.ofNat ((b0 - 240) * 262144 + (b1 - 128) * 4096 +
          (b2 - 128) * 64 + (b3 - 128)), t4)
      else none
    | _ => none
  else none

/-- Fuelled UTF-8 decoding loop; the fuel is an upper bound on the number of
characters still to decode. -/
def utf8DecodeAux : Nat → List Nat → Option (List Char)
  | _, [] => some []
  | 0, _ :: _ => none
  | fuel + 1, b0 :: t =>
    match utf8DecodeOne b0 t with
    | none => none
    | some (c, t2) =>
      match utf8DecodeAux fuel t2 with
      | some cs => some (c :: cs)
      | none => none

/-- UTF-8 decoding (Buffer utf8 stringification on well-formed input). -/
def utf8Decode (l : List Nat) : Option (List Char) :=
  utf8DecodeAux l.length l

theorem char_toNat_lt (c : Char) : c.toNat < 1114112 := by
  have h2 := c.valid
  unfold Char.toNat
  unfold Nat.isValidChar at h2
  rcases h2 with h | ⟨_, h⟩ <;> omega

theorem utf8EncodeChar_lt_256 (c : Char) : ∀ b ∈ utf8EncodeChar c, b < 256 := by
  intro b hb
  have hv : c.toNat < 1114112 := char_toNat_lt c
  unfold utf8EncodeChar at hb
  dsimp only at hb
  split_ifs at hb <;>
    simp only [List.mem_cons, List.not_mem_nil, or_false] at hb <;>
    omega

theorem utf8EncodeChar_shape (c : Char) (rest : List Nat) :
    ∃ b0 bs, utf8EncodeChar c = b0 :: bs ∧
      utf8DecodeOne b0 (bs ++ rest) = some (c, rest) := by
  have hv : c.toNat < 1114112 := char_toNat_lt c
  unfold utf8EncodeChar
  dsimp only
  by_cases h1 : c.toNat < 128
  · refine ⟨c.toNat, [], by rw [if_pos h1], ?_⟩
    unfold utf8DecodeOne
    rw [if_pos h1, Char.ofNat_toNat]
    rfl
  · by_cases h2 : c.toNat < 2048
    · refine ⟨_, _, by rw [if_neg h1, if_pos h2], ?_⟩
      unfold utf8DecodeOne
      rw [if_neg (by omega), if_neg (by omega), if_pos (by omega)]
      show (if 128 ≤ 128 + c.toNat % 64 ∧ 128 + c.toNat % 64 < 192 then _ else _) = _
      rw [if_pos (by constructor <;> omega)]
      have : (192 + c.toNat / 64 - 192) * 64 + (128 + c.toNat % 64 - 128) = c.toNat := by omega
      rw [this, Char.ofNat_toNat]
      rfl
    · by_cases h3 : c.toNat < 65536
      · refine ⟨_, _, by rw [if_neg h1, if_neg h2, if_pos h3], ?_⟩
        unfold utf8DecodeOne
        rw [if_neg (by omega), if_neg (by omega), if_neg (by omega), if_pos (by omega)]
        show (if (128 ≤ 128 + c.toNat / 64 % 64 ∧ 128 + c.toNat / 64 % 64 < 192) ∧
            128 ≤ 128 + c.toNat % 64 ∧ 128 + c.toNat % 64 < 192 then _ else _) = _
        rw [if_pos (by refine ⟨⟨?_, ?_⟩, ?_, ?_⟩ <;> omega)]
        have : (224 + c.toNat / 4096 - 224) * 4096 + (128 + c.toNat / 64 % 64 - 128) * 64 +
            (128 + c.toNat % 64 - 128) = c.toNat := by omega
        rw [this, Char.ofNat_toNat]
        rfl
      · refine ⟨_, _, by rw [if_neg h1, if_neg h2, if_neg h3], ?_⟩
        unfold utf8DecodeOne
        rw [if_neg (by omega), if_neg (by omega), if_neg (by omega), if_neg (by omega),
          if_pos (by omega)]
        show (if ((128 ≤ 128 + c.toNat / 4096 % 64 ∧ 128 + c.toNat / 4096 % 64 < 192) ∧
            128 ≤ 128 + c.toNat / 64 % 64 ∧ 128 + c.toNat / 64 % 64 < 192) ∧
            128 ≤ 128 + c.toNat % 64 ∧ 128 + c.toNat % 64 < 192 then _ else _) = _
        rw [if_pos (by refine ⟨⟨⟨?_, ?_⟩, ?_, ?_⟩, ?_, ?_⟩ <;> omega)]
        have : (240 + c.toNat / 262144 - 240) * 262144 + (128 + c.toNat / 4096 % 64 - 128) * 4096 +
            (128 + c.toNat / 64 % 64 - 128) * 64 + (128 + c.toNat % 64 - 128) = c.toNat := by omega
        rw [this, Char.ofNat_toNat]
        rfl

theorem utf8EncodeChar_length_pos (c : Char) : 0 < (utf8EncodeChar c).length := by
  unfold utf8EncodeChar
  dsimp only
  split_ifs <;> simp

theorem utf8DecodeAux_encode :
    ∀ (cs : List Char) (fuel : Nat),
      (cs.foldr (fun c acc => utf8EncodeChar c ++ acc) []).length ≤ fuel →
      utf8DecodeAux fuel (cs.foldr (fun c acc => utf8EncodeChar c ++ acc) []) = some cs := by
  intro cs
  induction cs with
  | nil =>
    intro fuel _
    cases fuel <;> rfl
  | cons c cs ih =>
    intro fuel hlen
    simp only [List.foldr_cons] at hlen ⊢
    obtain ⟨b0, bs, henc, hdec⟩ :=
      utf8EncodeChar_shape c (cs.foldr (fun c acc => utf8EncodeChar c ++ acc) [])
    have hpos : 0 < (utf8EncodeChar c).length := utf8EncodeChar_length_pos c
    rw [List.length_append] at hlen
    obtain ⟨f, rfl⟩ : ∃ f, fuel = f + 1 := by
      cases fuel with
      | zero => omega
      | succ n => exact ⟨n, rfl⟩
    rw [henc]
    show utf8DecodeAux (f + 1)
      (b0 :: (bs ++ cs.foldr (fun c acc => utf8EncodeChar c ++ acc) [])) = _
    unfold utf8DecodeAux
    rw [hdec]
    dsimp only
    have hlen2 : (cs.foldr (fun c acc => utf8EncodeChar c ++ acc) []).length ≤ f := by
      have : (utf8EncodeChar c).length = bs.length + 1 := by rw [henc]; rfl
      omega
    rw [ih f hlen2]

/-- UTF-8 round trip on well-formed strings. -/
theorem utf8_roundtrip (s : String) : utf8Decode (utf8Encode s) = some s.toList := by
  unfold utf8Decode utf8Encode
  exact utf8DecodeAux_encode s.toList _ (le_refl _)

/-- Character of the base64 alphabet for a sextet. -/
def b64Char (i : Nat) : Char :=
  if i < 26 then Char.ofNat (65 + i)
  else if i < 52 then Char.ofNat (97 + (i - 26))
  else if i < 62 then Char.ofNat (48 + (i - 52))
  else if i = 62 then '+'
  else '/'

/-- Sextet of a base64 alphabet character. -/
def b64Val (c : Char) : Option Nat :=
  let n := c.toNat
  if 65 ≤ n ∧ n ≤ 90 then some (n - 65)
  else if 97 ≤ n ∧ n ≤ 122 then some (n - 97 + 26)
  else if 48 ≤ n ∧ n ≤ 57 then some (n - 48 + 52)
  else if n = 43 then some 62
  else if n = 47 then some 63
  else none

/-- Model of Buffer base64 stringification: standard base64 with padding. -/
def base64Encode : List Nat → List Char
  | [] => []
  | [a] => [b64Char (a / 4), b64Char (a % 4 * 16), '=', '=']
  | [a, b] => [b64Char (a / 4), b64Char (a % 4 * 16 + b / 16), b64Char (b % 16 * 4), '=']
  | a :: b :: g :: rest =>
    b64Char (a / 4) :: b64Char (a % 4 * 16 + b / 16) :: b64Char (b % 16 * 4 + g / 64) ::
      b64Char (g % 64) :: base64Encode rest

/-- Model of Buffer base64 parsing on well-formed input. -/
def base64Decode : List Char → Option (List Nat)
  | [] => some []
  | c0 :: c1 :: c2 :: c3 :: rest =>
    match b64Val c0, b64Val c1 with
    | some v0, some v1 =>
      if c2 = '=' then
        if c3 = '=' ∧ rest = [] then some [v0 * 4 + v1 / 16] else none
      else
        match b64Val c2 with
        | some v2 =>
          if c3 = '=' then
            if rest = [] then some [v0 * 4 + v1 / 16, v1 % 16 * 16 + v2 / 4] else none
          else
            match b64Val c3 with
            | some v3 =>
              match base64Decode rest with
              | some bs =>
                some ((v0 * 4 + v1 / 16) :: (v1 % 16 * 16 + v2 / 4) ::
                  (v2 % 4 * 64 + v3) :: bs)
              | none => none
            | none => none
        | none => none
    | _, _ => none
  | _ => none

theorem b64Val_b64Char : ∀ v, v < 64 → b64Val (b64Char v) = some v := by decide

theorem b64Char_ne_eq : ∀ v, v < 64 → b64Char v ≠ '=' := by decide

/-- Base64 round trip on byte lists. -/
theorem base64_roundtrip :
    ∀ (l : List Nat), (∀ x ∈ l, x < 256) → base64Decode (base64Encode l) = some l
  | [], _ => rfl
  | [a], h => by
    have ha : a < 256 := h a (by simp)
    unfold base64Encode base64Decode
    rw [b64Val_b64Char _ (by omega), b64Val_b64Char _ (by omega)]
    dsimp only
    rw [if_pos rfl, if_pos ⟨rfl, rfl⟩]
    have : a / 4 * 4 + a % 4 * 16 / 16 = a := by omega
    rw [this]
  | [a, b], h => by
    have ha : a < 256 := h a (by simp)
    have hb : b < 256 := h b (by simp)
    unfold base64Encode base64Decode
    rw [b64Val_b64Char _ (by omega), b64Val_b64Char _ (by omega)]
    dsimp only
    rw [if_neg (b64Char_ne_eq _ (by omega)), b64Val_b64Char _ (by omega)]
    dsimp only
    rw [if_pos rfl, if_pos rfl]
    have h1 : a / 4 * 4 + (a % 4 * 16 + b / 16) / 16 = a := by omega
    have h2 : (a % 4 * 16 + b / 16) % 16 * 16 + b % 16 * 4 / 4 = b := by omega
    rw [h1, h2]
  | a :: b :: g :: rest, h => by
    have ha : a < 256 := h a (by simp)
    have hb : b < 256 := h b (by simp)
    have hg : g < 256 := h g (by simp)
    have ih := base64_roundtrip rest (fun x hx => h x (by simp [hx]))
    unfold base64Encode base64Decode
    rw [b64Val_b64Char _ (by omega), b64Val_b64Char _ (by omega)]
    dsimp only
    rw [if_neg (b64Char_ne_eq _ (by omega)), b64Val_b64Char _ (by omega)]
    dsimp only
    rw [if_neg (b64Char_ne_eq _ (by omega)), b64Val_b64Char _ (by omega)]
    dsimp only
    rw [ih]
    dsimp only
    have h1 : a / 4 * 4 + (a % 4 * 16 + b / 16) / 16 = a := by omega
    have h2 : (a % 4 * 16 + b / 16) % 16 * 16 + (b % 16 * 4 + g / 64) / 4 = b := by omega
    have h3 : (b % 16 * 4 + g / 64) % 4 * 64 + g % 64 = g := by omega
    rw [h1, h2, h3]

/-- The CTR core of AES-256-GCM: byte `i` of the message XORed with byte `i`
of the keystream (`cipher.update`/`decipher.update` + `final`). -/
def xorStream (ks : Nat → Nat) : Nat → List Nat → List Nat
  | _, [] => []
  | i, b :: t => (b ^^^ ks i % 256) :: xorStream ks (i + 1) t

theorem xorStream_involution (ks : Nat → Nat) :
    ∀ (i : Nat) (l : List Nat), xorStream ks i (xorStream ks i l) = l := by
  intro i l
  induction l generalizing i with
  | nil => rfl
  | cons b t ih =>
    show ((b ^^^ ks i % 256) ^^^ ks i % 256) :: xorStream ks (i + 1) (xorStream ks (i + 1) t)
      = b :: t
    rw [Nat.xor_assoc, Nat.xor_self, Nat.xor_zero, ih]

theorem xorStream_lt_256 (ks : Nat → Nat) :
    ∀ (i : Nat) (l : List Nat), (∀ x ∈ l, x < 256) →
      ∀ x ∈ xorStream ks i l, x < 256 := by
  intro i l
  induction l generalizing i with
  | nil => intro _ x hx; cases hx
  | cons b t ih =>
    intro h x hx
    unfold xorStream at hx
    rcases List.mem_cons.mp hx with rfl | hx'
    · have hb : b < 256 := h b (by simp)
      have hk : ks i % 256 < 256 := Nat.mod_lt _ (by omega)
      calc b ^^^ ks i % 256 < 2 ^ 8 :=
        Nat.xor_lt_two_pow (by omega) (by omega)
      _ = 256 := rfl
    · exact ih (i + 1) (fun y hy => h y (by simp [hy])) x hx'

theorem xorStream_length (ks : Nat → Nat) :
    ∀ (i : Nat) (l : List Nat), (xorStream ks i l).length = l.length := by
  intro i l
  induction l generalizing i with
  | nil => rfl
  | cons b t ih => unfold xorStream; simp [ih]

/-- The cryptographic primitives of `utils/encryption.ts`, abstracted:
`pbkdf2` is the pbkdf2Sync derivation (2145 iterations of sha512, 32 bytes),
`keystream` the AES-256-GCM CTR keystream for a key and IV, and `authTag`
byte `i` of the GCM authentication tag for a key, IV and ciphertext. -/
structure EncParams where
  pbkdf2 : String → List Nat → List Nat
  keystream : List Nat → List Nat → Nat → Nat
  authTag : List Nat → List Nat → List Nat → Nat → Nat

/-- The 16 authentication-tag bytes produced by `cipher.getAuthTag()`. -/
def tagBytes (P : EncParams) (key iv ct : List Nat) : List Nat :=
  (List.range 16).map (fun i => P.authTag key iv ct i % 256)

/-- Function `encryptData`: derive the key from the passphrase and a fresh 64-byte
salt, AES-256-GCM-encrypt the UTF-8 plaintext under a fresh 16-byte IV, and
base64-encode `salt ++ iv ++ authTag ++ ciphertext`.  The two random draws
are parameters of the model. -/
def encryptData (P : EncParams) (passphrase : String) (salt iv : List Nat)
    (text : String) : String :=
  let key := P.pbkdf2 passphrase salt
  let encrypted := xorStream (P.keystream key iv) 0 (utf8Encode text)
  let authTag := tagBytes P key iv encrypted
  String.mk (base64Encode (salt ++ (iv ++ (authTag ++ encrypted))))

/-- Function `decryptData`: base64-decode, slice salt bytes 0-63, IV 64-79, tag
bytes 80-95 and ciphertext `[96,·)`, re-derive the key with the same
passphrase, check the authentication tag (`decipher.final()` throws on a
mismatch, modelled as `none`), decrypt and UTF-8-decode. -/
def decryptData (P : EncParams) (passphrase : String) (encryptedData : String) :
    Option String :=
  match base64Decode encryptedData.toList with
  | none => none
  | some buffer =>
    let salt := buffer.take 64
    let iv := (buffer.drop 64).take 16
    let authTag := (buffer.drop 80).take 16
    let encrypted := buffer.drop 96
    let key := P.pbkdf2 passphrase salt
    if authTag = tagBytes P key iv encrypted then
      match utf8Decode (xorStream (P.keystream key iv) 0 encrypted) with
      | some cs => some (String.mk cs)
      | none => none
    else none

theorem tagBytes_lt_256 (P : EncParams) (key iv ct : List Nat) :
    ∀ x ∈ tagBytes P key iv ct, x < 256 := by
  intro x hx
  unfold tagBytes at hx
  rcases List.mem_map.mp hx with ⟨i, _, rfl⟩
  exact Nat.mod_lt _ (by omega)

theorem utf8Encode_lt_256 (text : String) : ∀ x ∈ utf8Encode text, x < 256 := by
  unfold utf8Encode
  induction text.toList with
  | nil => intro x hx; cases hx
  | cons c t ih =>
    intro x hx
    simp only [List.foldr_cons] at hx
    rcases List.mem_append.mp hx with hx' | hx'
    · exact utf8EncodeChar_lt_256 c x hx'
    · exact ih x hx'

/-- C1: for every choice of the cryptographic primitives, every passphrase,
every fresh 64-byte salt and 16-byte IV, and every string (empty and
non-ASCII included), `decryptData` inverts `encryptData`. -/
theorem encryptData_decryptData_roundtrip (P : EncParams) (passphrase : String)
    (salt iv : List Nat) (text : String)
    (hsl : salt.length = 64) (hsb : ∀ x ∈ salt, x < 256)
    (hil : iv.length = 16) (hib : ∀ x ∈ iv, x < 256) :
    decryptData P passphrase (encryptData P passphrase salt iv text) = some text := by
  unfold encryptData decryptData
  set key := P.pbkdf2 passphrase salt with hkey
  set encrypted := xorStream (P.keystream key iv) 0 (utf8Encode text) with henc
  set authTag := tagBytes P key iv encrypted with htag
  have hbytes : ∀ x ∈ salt ++ (iv ++ (authTag ++ encrypted)), x < 256 := by
    intro x hx
    rcases List.mem_append.mp hx with h | hx2
    · exact hsb x h
    · rcases List.mem_append.mp hx2 with h | hx3
      · exact hib x h
      · rcases List.mem_append.mp hx3 with h | h
        · exact tagBytes_lt_256 P key iv encrypted x h
        · exact xorStream_lt_256 (P.keystream key iv) 0 (utf8Encode text)
            (utf8Encode_lt_256 text) x h
  have hdecode :
      base64Decode (String.mk (base64Encode (salt ++ (iv ++ (authTag ++ encrypted))))).toList
        = some (salt ++ (iv ++ (authTag ++ encrypted))) := by
    show base64Decode (base64Encode (salt ++ (iv ++ (authTag ++ encrypted)))) = _
    exact base64_roundtrip _ hbytes
  rw [hdecode]
  dsimp only
  have htagl : authTag.length = 16 := by
    rw [htag]
    unfold tagBytes
    simp
  have htake : (salt ++ (iv ++ (authTag ++ encrypted))).take 64 = salt :=
    List.take_left' hsl
  have hdrop64 : (salt ++ (iv ++ (authTag ++ encrypted))).drop 64
      = iv ++ (authTag ++ encrypted) :=
    List.drop_left' hsl
  have hiv : ((salt ++ (iv ++ (authTag ++ encrypted))).drop 64).take 16 = iv := by
    rw [hdrop64]
    exact List.take_left' hil
  have hdrop80 : (salt ++ (iv ++ (authTag ++ encrypted))).drop 80
      = authTag ++ encrypted := by
    have h1 : (80 : Nat) = 64 + 16 := by omega
    rw [h1, ← List.drop_drop, hdrop64]
    exact List.drop_left' hil
  have htagslice : ((salt ++ (iv ++ (authTag ++ encrypted))).drop 80).take 16 = authTag := by
    rw [hdrop80]
    exact List.take_left' htagl
  have hct : (salt ++ (iv ++ (authTag ++ encrypted))).drop 96 = encrypted := by
    have h1 : (96 : Nat) = 80 + 16 := by omega
    rw [h1, ← List.drop_drop, hdrop80]
    exact List.drop_left' htagl
  rw [htake, hiv, htagslice, hct, ← hkey, ← htag, if_pos rfl, henc,
    xorStream_involution, utf8_roundtrip]
  rfl

/-- Concrete primitives for the round-trip witness: an all-zero key
derivation, the constant keystream 7, and the byte index as tag. -/
def encParamsW : EncParams :=
  ⟨fun _ _ => List.replicate 32 0, fun _ _ _ => 7, fun _ _ _ i => i⟩

theorem encryptData_decryptData_roundtrip_witness :
    ((List.replicate 64 0 : List Nat).length = 64 ∧
      (∀ x ∈ (List.replicate 64 0 : List Nat), x < 256) ∧
      (List.replicate 16 0 : List Nat).length = 16 ∧
      (∀ x ∈ (List.replicate 16 0 : List Nat), x < 256)) ∧
    decryptData encParamsW "default-key-replace-in-production"
      (encryptData encParamsW "default-key-replace-in-production"
        (List.replicate 64 0) (List.replicate 16 0) "héllo 🙂") = some "héllo 🙂" :=
  ⟨⟨by decide, by decide, by decide, by decide⟩,
    encryptData_decryptData_roundtrip encParamsW "default-key-replace-in-production"
      (List.replicate 64 0) (List.replicate 16 0) "héllo 🙂"
      (by decide) (by decide) (by decide) (by decide)⟩
